import Mathlib

/-!
Shallow embedding of the MindVault AI-proxy route (the Next.js `POST` handler
for the generative-AI provider), covering:

  - `buildPrompt`   : the prompt template builder (switch over the action field);
  - model fallback  : `preferredModel` / `fallbackModels` and the 404-driven
    retry loop over candidate models (`dispatchFrom` / `dispatch`);
  - response post-processing : `extractText` (first candidate, first part,
    trimmed) and `parseTags` (the tags-action split/strip/filter pipeline);
  - the full handler `POSTAux` / `POST`, with thrown exceptions modelled as
    `Except String` and the surrounding try/catch as the total wrapper `POST`.

JavaScript runtime details are modelled explicitly:
  - optional / possibly-absent fields are `Option String`;
  - truthiness of a string (`!s`) is the test `s = ""` on the defaulted value;
  - `x?.trim() ?? ""` is `optTrim`;
  - `String.prototype.trim` is `jsTrim`, an explicit character-list
    computation (the inputs of interest are ASCII);
  - the regex literal `[,\\n]+` in the source denotes the character class
    consisting of the comma, the backslash and the letter n (the doubled
    backslash escapes a literal backslash inside the class), and the split
    is on maximal runs of that class (`splitRuns`);
  - a network call is recorded (in order) each time the fetch oracle is
    consulted, whether or not the fetch succeeds.
-/

/-- JavaScript-style trim of surrounding whitespace, as a character-list
computation so that it reduces in the kernel. -/
def jsTrim (s : String) : String :=
  String.mk (((s.toList.dropWhile Char.isWhitespace).reverse.dropWhile
    Char.isWhitespace).reverse)

/-- Model of the JavaScript expression `x?.trim() ?? ""` on an optional field. -/
def optTrim (o : Option String) : String :=
  match o with
  | some s => jsTrim s
  | none => ""

/-- The parsed JSON request body (type `GeminiRequest` in the source). The
action and tone are kept as raw strings, as the runtime does not enforce the
TypeScript literal unions. -/
structure GeminiRequest where
  action : Option String
  content : Option String
  tone : Option String
  prompt : Option String
  question : Option String
  notesContext : Option String
deriving DecidableEq, Repr

/-- The prompt template builder (`buildPrompt` in the source): a switch on
the action field, defaulting to the trimmed content field. -/
def buildPrompt (payload : GeminiRequest) : String :=
  let content := optTrim payload.content
  let tone := payload.tone.getD "professional"
  if payload.action = some "summarize" then
    "Summarize this note in 3 concise bullet points. No extra commentary:\n\n"
      ++ content
  else if payload.action = some "improve" then
    "Rewrite this note to improve clarity and structure. Use a " ++ tone
      ++ " tone. Return ONLY a single rewritten version (no headings, no bullet points, no multiple options). Keep it concise (max 2 short paragraphs) and preserve the original meaning:\n\n"
      ++ content
  else if payload.action = some "tags" then
    "Suggest 5 short tags for this note. Respond as a comma-separated list without hashtags:\n\n"
      ++ content
  else if payload.action = some "generate" then
    "Write a concise draft note based on the following topic. Return ONLY the draft (no headings, no options):\n\n"
      ++ payload.prompt.getD ""
  else if payload.action = some "ask" then
    "You are an assistant with access to the user\x27s notes. Use the notes to answer the question.\nIf there are relevant notes, list them with their titles and a short reason. If not, say you could not find a relevant note.\n\nNotes:\n"
      ++ payload.notesContext.getD "" ++ "\n\nQuestion: "
      ++ payload.question.getD ""
  else
    content

/-- One part of a provider response candidate (field `text`). -/
structure GeminiPart where
  text : Option String
deriving DecidableEq, Repr

/-- The content of a provider response candidate (field `parts`). -/
structure GeminiContent where
  parts : Option (List GeminiPart)
deriving DecidableEq, Repr

/-- One candidate of the provider response (field `content`). -/
structure GeminiCandidate where
  content : Option GeminiContent
deriving DecidableEq, Repr

/-- The JSON envelope of a provider response (field `candidates`). -/
structure GeminiData where
  candidates : Option (List GeminiCandidate)
deriving DecidableEq, Repr

/-- The optional-chaining extraction
`data.candidates?.[0]?.content?.parts?.[0]?.text?.trim() ?? ""`. -/
def extractText (d : GeminiData) : String :=
  match d.candidates with
  | some (c :: _) =>
    match c.content with
    | some ct =>
      match ct.parts with
      | some (p :: _) =>
        match p.text with
        | some t => jsTrim t
        | none => ""
      | _ => ""
    | none => ""
  | _ => ""

/-- The character class of the regex literal `[,\\n]` as written in the
source: a comma, a literal backslash (the doubled backslash is an escape for
one backslash character), and the letter n. Note that the newline character
is NOT in this class. -/
def isTagSep (c : Char) : Bool := c == ',' || c == '\\' || c == 'n'

/-- Splitting a character list on maximal nonempty runs of separator
characters, as a JavaScript regex split on `[class]+` does (empty pieces
arise before a leading run, between adjacent runs collapsed to one
separator occurrence, and after a trailing run). Fuel-driven so that it is
structural; the fuel `length + 1` always suffices because every recursive
step consumes at least one separator character. -/
def splitRunsGo (sep : Char → Bool) : Nat → List Char → List (List Char)
  | 0, cs => [cs]
  | fuel + 1, cs =>
    let piece := cs.takeWhile (fun c => !sep c)
    match cs.dropWhile (fun c => !sep c) with
    | [] => [piece]
    | _ :: rs => piece :: splitRunsGo sep fuel (rs.dropWhile sep)

/-- String-level run splitting, modelling `text.split` on the regex. -/
def splitRuns (sep : Char → Bool) (s : String) : List String :=
  (splitRunsGo sep (s.toList.length + 1) s.toList).map (fun cs => String.mk cs)

/-- Model of `replace` with the anchored regex removing a leading run of
hash characters. -/
def stripHashes (s : String) : String :=
  String.mk (s.toList.dropWhile (fun c => c == '#'))

/-- The tags-action post-processing pipeline from the source:
split on the `[,\\n]+` regex, trim each piece and strip its leading hashes,
then drop falsy (empty) pieces. -/
def parseTags (text : String) : List String :=
  ((splitRuns isTagSep text).map (fun t => stripHashes (jsTrim t))).filter
    (fun t => t != "")

/-- `process.env.GEMINI_MODEL ?? "gemini-1.5-flash-latest"` (nullish
coalescing: an empty configured string is kept). -/
def preferredModel (envModel : Option String) : String :=
  envModel.getD "gemini-1.5-flash-latest"

/-- The candidate models after the first: empty when an explicit model is
configured (truthily, so a defined nonempty string), otherwise the two
fixed fallback identifiers. -/
def fallbackTail (envModel : Option String) : List String :=
  if envModel.getD "" ≠ "" then []
  else ["gemini-1.5-pro", "gemini-1.0-pro"]

/-- The ordered candidate model list (`fallbackModels` in the source):
`[preferredModel]` when a model is configured, otherwise the fixed
three-element default sequence. -/
def fallbackModels (envModel : Option String) : List String :=
  preferredModel envModel :: fallbackTail envModel

/-- HTTP success check of the fetch API: `response.ok` holds exactly for
statuses 200 through 299. -/
def isOk (status : Nat) : Bool := 200 ≤ status && status ≤ 299

/-- The observable behaviour of one provider fetch: the HTTP status, the
raw text body (`response.text()`), and the parsed JSON body
(`response.json()`, which can throw). -/
structure FetchResponse where
  status : Nat
  textBody : String
  jsonBody : Except String GeminiData
deriving Repr

/-- The 404 fallback loop body, after the first response is in hand: while
the current response is not ok, its status is 404 and candidate models
remain, fetch the next candidate. Returns the final response (or the thrown
fetch failure) together with the list of models fetched by the loop. -/
def dispatchFrom (oracle : String → Except String FetchResponse) :
    FetchResponse → List String → Except String FetchResponse × List String
  | cur, [] => (Except.ok cur, [])
  | cur, m :: ms =>
    if isOk cur.status = false ∧ cur.status = 404 then
      match oracle m with
      | Except.error e => (Except.error e, [m])
      | Except.ok r =>
        let next := dispatchFrom oracle r ms
        (next.1, m :: next.2)
    else (Except.ok cur, [])

/-- The full dispatch: fetch the first candidate model, then run the 404
fallback loop over the remaining candidates. The second component lists, in
order, every model for which a fetch was issued. -/
def dispatch (oracle : String → Except String FetchResponse)
    (envModel : Option String) : Except String FetchResponse × List String :=
  match oracle (preferredModel envModel) with
  | Except.error e => (Except.error e, [preferredModel envModel])
  | Except.ok r =>
    let next := dispatchFrom oracle r (fallbackTail envModel)
    (next.1, preferredModel envModel :: next.2)

/-- The JSON body of the response the handler returns to its caller. -/
inductive ResponseBody where
  | err (msg : String)
  | text (t : String)
  | textTags (t : String) (tags : List String)
deriving DecidableEq, Repr

/-- The response the handler returns to its caller: HTTP status plus JSON
body (a success body carries status 200, the NextResponse default). -/
structure HandlerResponse where
  status : Nat
  body : ResponseBody
deriving DecidableEq, Repr

/-- The body of the try block of the `POST` handler. Inputs: the API key
and model environment variables, the result of parsing the request body
(`request.json()`, which throws on invalid JSON), and the fetch oracle
giving each candidate model its response (or thrown network failure).
Output: the handler response, or the propagated exception, together with
the ordered list of models for which an outbound fetch was issued. -/
def POSTAux (apiKey envModel : Option String)
    (parsed : Except String GeminiRequest)
    (oracle : String → Except String FetchResponse) :
    Except String HandlerResponse × List String :=
  match parsed with
  | Except.error e => (Except.error e, [])
  | Except.ok body =>
    if apiKey.getD "" = "" then
      (Except.ok ⟨500, ResponseBody.err "Missing GEMINI_API_KEY."⟩, [])
    else if body.action = some "ask" ∧ optTrim body.question = "" then
      (Except.ok ⟨400, ResponseBody.err "Missing question."⟩, [])
    else if body.action = some "ask" ∧ optTrim body.notesContext = "" then
      (Except.ok ⟨400, ResponseBody.err "Missing notes context."⟩, [])
    else if buildPrompt body = "" then
      (Except.ok ⟨400, ResponseBody.err "Empty prompt."⟩, [])
    else
      match dispatch oracle envModel with
      | (Except.error e, calls) => (Except.error e, calls)
      | (Except.ok resp, calls) =>
        if isOk resp.status = false then
          (Except.ok ⟨resp.status, ResponseBody.err
            (if resp.textBody = "" then "Gemini request failed."
             else resp.textBody)⟩, calls)
        else
          match resp.jsonBody with
          | Except.error e => (Except.error e, calls)
          | Except.ok data =>
            let text := extractText data
            if text = "" then
              (Except.ok ⟨500, ResponseBody.err "No content returned."⟩, calls)
            else if body.action = some "tags" then
              (Except.ok ⟨200, ResponseBody.textTags text (parseTags text)⟩,
                calls)
            else
              (Except.ok ⟨200, ResponseBody.text text⟩, calls)

/-- The whole `POST` handler: the try block wrapped in the catch clause,
which turns any thrown error into a status-500 JSON error response carrying
the error message (every modelled exception carries a message, matching the
`Error` case of the catch). -/
def POST (apiKey envModel : Option String)
    (parsed : Except String GeminiRequest)
    (oracle : String → Except String FetchResponse) :
    HandlerResponse × List String :=
  match POSTAux apiKey envModel parsed oracle with
  | (Except.ok r, calls) => (r, calls)
  | (Except.error m, calls) => (⟨500, ResponseBody.err m⟩, calls)

/-- A string append with a nonempty left factor is nonempty. -/
theorem string_append_ne_empty (s t : String) (hs : s ≠ "") : s ++ t ≠ "" := by
  intro h
  apply hs
  cases s with
  | mk a =>
    cases t with
    | mk b =>
      have hd : a ++ b = [] := congrArg String.data h
      have ha : a = [] := (List.append_eq_nil.mp hd).1
      simp [ha]

/-- On an action matching none of the five switch cases, `buildPrompt`
falls through to the default branch, which echoes the trimmed content. -/
theorem buildPrompt_default (p : GeminiRequest)
    (h1 : p.action ≠ some "summarize") (h2 : p.action ≠ some "improve")
    (h3 : p.action ≠ some "tags") (h4 : p.action ≠ some "generate")
    (h5 : p.action ≠ some "ask") :
    buildPrompt p = optTrim p.content := by
  simp [buildPrompt, h1, h2, h3, h4, h5]

/-- The fallback loop issues at most one call per remaining candidate. -/
theorem dispatchFrom_calls_length
    (oracle : String → Except String FetchResponse) (ms : List String) :
    ∀ r, ((dispatchFrom oracle r ms).2).length ≤ ms.length := by
  induction ms with
  | nil => intro r; simp [dispatchFrom]
  | cons m ms ih =>
    intro r
    unfold dispatchFrom
    split
    · cases h : oracle m with
      | error e => simp
      | ok r2 =>
        have := ih r2
        simp only [List.length_cons]
        omega
    · simp

/-- The dispatch issues at most one call per candidate model. -/
theorem dispatch_calls_length
    (oracle : String → Except String FetchResponse) (envModel : Option String) :
    ((dispatch oracle envModel).2).length ≤ (fallbackModels envModel).length := by
  unfold dispatch fallbackModels
  cases h : oracle (preferredModel envModel) with
  | error e => simp
  | ok r =>
    have := dispatchFrom_calls_length oracle (fallbackTail envModel) r
    simp only [List.length_cons]
    omega

/-- The candidate list has one or three elements, so never more than three. -/
theorem fallbackModels_length_le (envModel : Option String) :
    (fallbackModels envModel).length ≤ 3 := by
  unfold fallbackModels fallbackTail
  split <;> simp

/-- The handler makes either no calls (when it returns before dispatching)
or exactly the calls of the dispatch. -/
theorem POSTAux_calls (apiKey envModel : Option String)
    (parsed : Except String GeminiRequest)
    (oracle : String → Except String FetchResponse) :
    (POSTAux apiKey envModel parsed oracle).2 = [] ∨
    (POSTAux apiKey envModel parsed oracle).2 = (dispatch oracle envModel).2 := by
  unfold POSTAux
  cases parsed with
  | error e => left; rfl
  | ok b =>
    dsimp only
    split
    · left; rfl
    split
    · left; rfl
    split
    · left; rfl
    split
    · left; rfl
    rcases hdis : dispatch oracle envModel with ⟨res, calls⟩
    cases res with
    | error e => right; rfl
    | ok resp =>
      dsimp only
      split
      · right; rfl
      cases hj : resp.jsonBody with
      | error e => right; rfl
      | ok data =>
        dsimp only
        split
        · right; rfl
        split
        · right; rfl
        · right; rfl

/-- The try/catch wrapper returns the same call list as the try body. -/
theorem POST_calls_eq_POSTAux (apiKey envModel : Option String)
    (parsed : Except String GeminiRequest)
    (oracle : String → Except String FetchResponse) :
    (POST apiKey envModel parsed oracle).2 =
      (POSTAux apiKey envModel parsed oracle).2 := by
  unfold POST
  rcases h : POSTAux apiKey envModel parsed oracle with ⟨res, calls⟩
  cases res <;> rfl

/-- C2 counterexample: with no model configured and a provider that answers
404 for every candidate, the handler issues three outbound calls — one per
default candidate — so the claimed bound of at most two calls (never a
third) is false. -/
theorem C2_counterexample :
    (POST (some "key") none
      (Except.ok ⟨none, some "hi", none, none, none, none⟩)
      (fun _ => Except.ok ⟨404, "nf", Except.error "nojson"⟩)).2 =
    ["gemini-1.5-flash-latest", "gemini-1.5-pro", "gemini-1.0-pro"] := by
  decide

/-- C2 (amended): every invocation of the handler issues at most one
outbound call per candidate model, hence at most three calls with the
default three-element candidate list and exactly one initial call plus up
to two 404-driven retries; a fourth call is impossible. -/
theorem C2_at_most_three_calls (apiKey envModel : Option String)
    (parsed : Except String GeminiRequest)
    (oracle : String → Except String FetchResponse) :
    ((POST apiKey envModel parsed oracle).2).length ≤
      (fallbackModels envModel).length ∧
    ((POST apiKey envModel parsed oracle).2).length ≤ 3 := by
  have h1 := POST_calls_eq_POSTAux apiKey envModel parsed oracle
  have h2 := POSTAux_calls apiKey envModel parsed oracle
  have h3 := dispatch_calls_length oracle envModel
  have h4 := fallbackModels_length_le envModel
  rcases h2 with h2 | h2 <;> rw [h1, h2]
  · constructor <;> simp
  · exact ⟨h3, le_trans h3 h4⟩

/-- C3: the implemented tags splitter does not split on newline characters
and does split on the letter n (and on a backslash), because the regex
character class in the source is comma, backslash, letter n — so the
extracted text "note" parses to the tag list containing "ote", a text with
an embedded newline stays one tag, and a backslash separates tags. -/
theorem C3_split_class_behaviour :
    parseTags "note" = ["ote"] ∧
    parseTags "alpha\nbeta" = ["alpha\nbeta"] ∧
    parseTags "a,b\\c" = ["a", "b", "c"] := by
  decide

/-- C4 counterexample: on the unrecognized action "bogus" with content
"hello", `buildPrompt` returns "hello", not the empty string. -/
theorem C4_counterexample :
    buildPrompt ⟨some "bogus", some "hello", none, none, none, none⟩ = "hello"
      ∧ ("hello" : String) ≠ "" := by
  decide

/-- C4 (amended): for every payload whose action is not one of the five
recognized values (including an absent action), `buildPrompt` returns the
trimmed content field — the empty string exactly when content is absent or
whitespace-only. -/
theorem C4_unrecognized_echoes_content (p : GeminiRequest)
    (h1 : p.action ≠ some "summarize") (h2 : p.action ≠ some "improve")
    (h3 : p.action ≠ some "tags") (h4 : p.action ≠ some "generate")
    (h5 : p.action ≠ some "ask") :
    buildPrompt p = optTrim p.content :=
  buildPrompt_default p h1 h2 h3 h4 h5

/-- C4 witness: the amended statement at the concrete unrecognized action
"other" with content surrounded by spaces. -/
theorem C4_witness :
    buildPrompt ⟨some "other", some "  hi  ", none, none, none, none⟩ =
      optTrim (some "  hi  ") ∧ optTrim (some "  hi  ") = "hi" :=
  ⟨C4_unrecognized_echoes_content
      ⟨some "other", some "  hi  ", none, none, none, none⟩
      (by decide) (by decide) (by decide) (by decide) (by decide),
    by decide⟩

/-- C8: the tags-action post-processing of the extracted text
"#focus, Research,, #dream" yields exactly the tags focus, Research, dream:
order preserved, the empty segment dropped, leading hashes stripped, and no
case normalization applied. -/
theorem C8_tags_example :
    parseTags "#focus, Research,, #dream" = ["focus", "Research", "dream"] := by
  decide

/-- C7: for every provider JSON body whose first candidate has a first part
carrying a text field, the extracted text is that text with surrounding
whitespace trimmed. -/
theorem C7_extract_first_part (d : GeminiData) (c : GeminiCandidate)
    (cs : List GeminiCandidate) (ct : GeminiContent) (p : GeminiPart)
    (ps : List GeminiPart) (t : String)
    (h1 : d.candidates = some (c :: cs)) (h2 : c.content = some ct)
    (h3 : ct.parts = some (p :: ps)) (h4 : p.text = some t) :
    extractText d = jsTrim t := by
  simp [extractText, h1, h2, h3, h4]

/-- C7 witness: the body whose only part carries the text hello surrounded
by spaces extracts to the trimmed text hello. -/
theorem C7_witness :
    extractText ⟨some [⟨some ⟨some [⟨some "  hello  "⟩]⟩⟩]⟩ = "hello" := by
  have h := C7_extract_first_part ⟨some [⟨some ⟨some [⟨some "  hello  "⟩]⟩⟩]⟩
    ⟨some ⟨some [⟨some "  hello  "⟩]⟩⟩ [] ⟨some [⟨some "  hello  "⟩]⟩
    ⟨some "  hello  "⟩ [] "  hello  " rfl rfl rfl rfl
  rw [h]
  decide

/-- C9: for every payload with a recognized action the built prompt is
nonempty (each switch branch prepends a fixed nonempty template), and
conversely an empty built prompt — the exact condition of the
Empty-prompt 400 branch — forces an unrecognized action together with an
absent or whitespace-only content field. -/
theorem C9_recognized_prompt_nonempty :
    (∀ p : GeminiRequest,
      (p.action = some "summarize" ∨ p.action = some "improve" ∨
       p.action = some "tags" ∨ p.action = some "generate" ∨
       p.action = some "ask") → buildPrompt p ≠ "") ∧
    (∀ p : GeminiRequest, buildPrompt p = "" →
      (p.action ≠ some "summarize" ∧ p.action ≠ some "improve" ∧
       p.action ≠ some "tags" ∧ p.action ≠ some "generate" ∧
       p.action ≠ some "ask") ∧ optTrim p.content = "") := by
  have part1 : ∀ p : GeminiRequest,
      (p.action = some "summarize" ∨ p.action = some "improve" ∨
       p.action = some "tags" ∨ p.action = some "generate" ∨
       p.action = some "ask") → buildPrompt p ≠ "" := by
    intro p hcase
    rcases hcase with h | h | h | h | h <;>
      simp only [buildPrompt, h, Option.some.injEq, reduceIte] <;>
      first
        | exact string_append_ne_empty _ _ (by decide)
        | exact string_append_ne_empty _ _ (string_append_ne_empty _ _
            (string_append_ne_empty _ _ (by decide)))
  refine ⟨part1, fun p h => ?_⟩
  have h1 : p.action ≠ some "summarize" := fun hc => part1 p (Or.inl hc) h
  have h2 : p.action ≠ some "improve" :=
    fun hc => part1 p (Or.inr (Or.inl hc)) h
  have h3 : p.action ≠ some "tags" :=
    fun hc => part1 p (Or.inr (Or.inr (Or.inl hc))) h
  have h4 : p.action ≠ some "generate" :=
    fun hc => part1 p (Or.inr (Or.inr (Or.inr (Or.inl hc)))) h
  have h5 : p.action ≠ some "ask" :=
    fun hc => part1 p (Or.inr (Or.inr (Or.inr (Or.inr hc)))) h
  rw [buildPrompt_default p h1 h2 h3 h4 h5] at h
  exact ⟨⟨h1, h2, h3, h4, h5⟩, h⟩

/-- C9 witness: the first half of the statement at the concrete payload
whose action is summarize and whose fields are all absent. -/
theorem C9_witness :
    buildPrompt ⟨some "summarize", none, none, none, none, none⟩ ≠ "" :=
  (C9_recognized_prompt_nonempty).1
    ⟨some "summarize", none, none, none, none, none⟩ (Or.inl rfl)

/-- C5: for every ask request whose question or notes context is absent or
whitespace-only (with the API key configured), the handler returns a 400
validation error and issues no outbound call. -/
theorem C5_ask_validation_no_call (k : String) (envModel : Option String)
    (oracle : String → Except String FetchResponse) (b : GeminiRequest)
    (hk : k ≠ "") (hb : b.action = some "ask")
    (h : optTrim b.question = "" ∨ optTrim b.notesContext = "") :
    ∃ m, POST (some k) envModel (Except.ok b) oracle =
      (⟨400, ResponseBody.err m⟩, []) := by
  by_cases hq : optTrim b.question = ""
  · refine ⟨"Missing question.", ?_⟩
    unfold POST POSTAux
    simp only [Option.getD_some]
    rw [if_neg hk, if_pos ⟨hb, hq⟩]
  · have hn : optTrim b.notesContext = "" := h.resolve_left hq
    refine ⟨"Missing notes context.", ?_⟩
    unfold POST POSTAux
    simp only [Option.getD_some]
    rw [if_neg hk,
      if_neg (fun hx : b.action = some "ask" ∧ optTrim b.question = "" =>
        hq hx.2),
      if_pos ⟨hb, hn⟩]

/-- C5 witness: an ask request with a nonempty question and an absent notes
context yields a 400 validation error with no outbound call. -/
theorem C5_witness :
    ∃ m, POST (some "key") none
      (Except.ok ⟨some "ask", none, none, none, some "what", none⟩)
      (fun _ => Except.error "net") =
      (⟨400, ResponseBody.err m⟩, []) :=
  C5_ask_validation_no_call "key" none (fun _ => Except.error "net")
    ⟨some "ask", none, none, none, some "what", none⟩
    (by decide) rfl (Or.inr rfl)

/-- Once the key check, the ask validation and the prompt check pass, the
handler result is determined by the dispatch outcome. -/
theorem POST_dispatch_reached (k : String) (envModel : Option String)
    (b : GeminiRequest) (oracle : String → Except String FetchResponse)
    (hk : k ≠ "")
    (hq : ¬(b.action = some "ask" ∧ optTrim b.question = ""))
    (hn : ¬(b.action = some "ask" ∧ optTrim b.notesContext = ""))
    (hp : buildPrompt b ≠ "") :
    POST (some k) envModel (Except.ok b) oracle =
      match dispatch oracle envModel with
      | (Except.error e, calls) => (⟨500, ResponseBody.err e⟩, calls)
      | (Except.ok resp, calls) =>
        if isOk resp.status = false then
          (⟨resp.status, ResponseBody.err
            (if resp.textBody = "" then "Gemini request failed."
             else resp.textBody)⟩, calls)
        else
          match resp.jsonBody with
          | Except.error e => (⟨500, ResponseBody.err e⟩, calls)
          | Except.ok data =>
            if extractText data = "" then
              (⟨500, ResponseBody.err "No content returned."⟩, calls)
            else if b.action = some "tags" then
              (⟨200, ResponseBody.textTags (extractText data)
                (parseTags (extractText data))⟩, calls)
            else
              (⟨200, ResponseBody.text (extractText data)⟩, calls) := by
  unfold POST POSTAux
  simp only [Option.getD_some]
  rw [if_neg hk, if_neg hq, if_neg hn, if_neg hp]
  rcases hd : dispatch oracle envModel with ⟨res, calls⟩
  cases res with
  | error e => rfl
  | ok resp =>
    dsimp only
    by_cases hs : isOk resp.status = false
    · rw [if_pos hs, if_pos hs]
    rw [if_neg hs, if_neg hs]
    cases hj : resp.jsonBody with
    | error e => rfl
    | ok data =>
      dsimp only
      by_cases he : extractText data = ""
      · rw [if_pos he, if_pos he]
      rw [if_neg he, if_neg he]
      by_cases ht : b.action = some "tags"
      · rw [if_pos ht, if_pos ht]
      rw [if_neg ht, if_neg ht]

/-- When the guards pass, the call list of the handler is exactly the call
list of the dispatch. -/
theorem POST_calls_eq_dispatch (k : String) (envModel : Option String)
    (b : GeminiRequest) (oracle : String → Except String FetchResponse)
    (hk : k ≠ "")
    (hq : ¬(b.action = some "ask" ∧ optTrim b.question = ""))
    (hn : ¬(b.action = some "ask" ∧ optTrim b.notesContext = ""))
    (hp : buildPrompt b ≠ "") :
    (POST (some k) envModel (Except.ok b) oracle).2 =
      (dispatch oracle envModel).2 := by
  rw [POST_dispatch_reached k envModel b oracle hk hq hn hp]
  rcases hd : dispatch oracle envModel with ⟨res, calls⟩
  cases res with
  | error e => rfl
  | ok resp =>
    dsimp only
    by_cases hs : isOk resp.status = false
    · rw [if_pos hs]
    rw [if_neg hs]
    cases hj : resp.jsonBody with
    | error e => rfl
    | ok data =>
      dsimp only
      by_cases he : extractText data = ""
      · rw [if_pos he]
      rw [if_neg he]
      by_cases ht : b.action = some "tags"
      · rw [if_pos ht]
      rw [if_neg ht]

/-- When the first fetch succeeds with a response that does not trigger the
404 fallback, the dispatch ends after that single call. -/
theorem dispatch_first_ok (oracle : String → Except String FetchResponse)
    (envModel : Option String) (r : FetchResponse)
    (hr : oracle (preferredModel envModel) = Except.ok r)
    (hnot : ¬(isOk r.status = false ∧ r.status = 404)) :
    dispatch oracle envModel = (Except.ok r, [preferredModel envModel]) := by
  unfold dispatch
  rw [hr]
  dsimp only
  cases htail : fallbackTail envModel with
  | nil => rfl
  | cons t ts =>
    unfold dispatchFrom
    rw [if_neg hnot]

/-- C10: the handler never propagates an exception: whenever the try body
throws (with message m), the handler returns the status-500 error response
carrying m; in particular a request body that is not valid JSON (a parse
exception) is caught and so is a network-level fetch failure on the first
candidate model. -/
theorem C10_catch_returns_500 :
    (∀ (apiKey envModel : Option String)
       (parsed : Except String GeminiRequest)
       (oracle : String → Except String FetchResponse)
       (m : String) (calls : List String),
       POSTAux apiKey envModel parsed oracle = (Except.error m, calls) →
       POST apiKey envModel parsed oracle =
         (⟨500, ResponseBody.err m⟩, calls)) ∧
    (∀ (apiKey envModel : Option String)
       (oracle : String → Except String FetchResponse) (m : String),
       (POST apiKey envModel (Except.error m) oracle).1 =
         ⟨500, ResponseBody.err m⟩) ∧
    (∀ (k : String) (envModel : Option String) (b : GeminiRequest)
       (oracle : String → Except String FetchResponse) (m : String),
       k ≠ "" → ¬(b.action = some "ask" ∧ optTrim b.question = "") →
       ¬(b.action = some "ask" ∧ optTrim b.notesContext = "") →
       buildPrompt b ≠ "" →
       oracle (preferredModel envModel) = Except.error m →
       (POST (some k) envModel (Except.ok b) oracle).1 =
         ⟨500, ResponseBody.err m⟩) := by
  refine ⟨?_, ?_, ?_⟩
  · intro apiKey envModel parsed oracle m calls h
    unfold POST
    rw [h]
  · intro apiKey envModel oracle m
    rfl
  · intro k envModel b oracle m hk hq hn hp hr
    rw [POST_dispatch_reached k envModel b oracle hk hq hn hp]
    have hdis : dispatch oracle envModel =
        (Except.error m, [preferredModel envModel]) := by
      unfold dispatch
      rw [hr]
    rw [hdis]

/-- C10 witness: a network failure on the first call surfaces as a 500
error with the failure message. -/
theorem C10_witness :
    (POST (some "key") none
      (Except.ok ⟨none, some "hi", none, none, none, none⟩)
      (fun _ => Except.error "network down")).1 =
      ⟨500, ResponseBody.err "network down"⟩ :=
  (C10_catch_returns_500).2.2 "key" none ⟨none, some "hi", none, none, none, none⟩
    (fun _ => Except.error "network down") "network down"
    (by decide) (by decide) (by decide) (by decide) rfl

/-- C6: a provider success response (2xx) whose JSON body has an empty or
absent candidates array, or whose first candidate is missing its content,
parts, first part, or text field, makes the handler return a 500
empty-result error (No content returned.), distinct from the upstream
failure path, rather than crash. -/
theorem C6_empty_result_error (k : String) (envModel : Option String)
    (oracle : String → Except String FetchResponse) (b : GeminiRequest)
    (hk : k ≠ "")
    (hq : ¬(b.action = some "ask" ∧ optTrim b.question = ""))
    (hn : ¬(b.action = some "ask" ∧ optTrim b.notesContext = ""))
    (hp : buildPrompt b ≠ "")
    (r : FetchResponse) (d : GeminiData)
    (hr : oracle (preferredModel envModel) = Except.ok r)
    (hok : isOk r.status = true) (hj : r.jsonBody = Except.ok d)
    (hd : d.candidates = none ∨ d.candidates = some [] ∨
      (∃ c l, d.candidates = some (c :: l) ∧ (c.content = none ∨
        ∃ ct, c.content = some ct ∧ (ct.parts = none ∨ ct.parts = some [] ∨
          ∃ p ps, ct.parts = some (p :: ps) ∧ p.text = none)))) :
    POST (some k) envModel (Except.ok b) oracle =
      (⟨500, ResponseBody.err "No content returned."⟩,
        [preferredModel envModel]) := by
  have hext : extractText d = "" := by
    rcases hd with h | h | ⟨c, l, hc, h⟩
    · simp [extractText, h]
    · simp [extractText, h]
    rcases h with h2 | ⟨ct, hct, h2⟩
    · simp [extractText, hc, h2]
    rcases h2 with h3 | h3 | ⟨p, ps, hps, h3⟩
    · simp [extractText, hc, hct, h3]
    · simp [extractText, hc, hct, h3]
    · simp [extractText, hc, hct, hps, h3]
  have hnot : ¬(isOk r.status = false ∧ r.status = 404) := by
    intro hx
    rw [hok] at hx
    exact absurd hx.1 (by decide)
  rw [POST_dispatch_reached k envModel b oracle hk hq hn hp,
    dispatch_first_ok oracle envModel r hr hnot]
  dsimp only
  rw [if_neg (by rw [hok]; decide), hj]
  dsimp only
  rw [if_pos hext]

/-- C6 witness: a 200 response whose candidates array is empty yields the
500 empty-result error after the single call to the default first model. -/
theorem C6_witness :
    POST (some "key") none
      (Except.ok ⟨none, some "hi", none, none, none, none⟩)
      (fun _ => Except.ok ⟨200, "", Except.ok ⟨some []⟩⟩) =
      (⟨500, ResponseBody.err "No content returned."⟩,
        ["gemini-1.5-flash-latest"]) :=
  C6_empty_result_error "key" none
    (fun _ => Except.ok ⟨200, "", Except.ok ⟨some []⟩⟩)
    ⟨none, some "hi", none, none, none, none⟩
    (by decide) (by decide) (by decide) (by decide)
    ⟨200, "", Except.ok ⟨some []⟩⟩ ⟨some []⟩ rfl rfl rfl
    (Or.inr (Or.inl rfl))

/-- C1: with no model configured (the default three-candidate list), if the
first candidate answers 404 then a second request is issued against the
second default candidate (the second entry of the call list is
gemini-1.5-pro), while if the first candidate answers any other
unsuccessful status with a nonempty error body then no second request is
issued and that status and body are surfaced to the caller. -/
theorem C1_fallback_on_404_only (k : String) (b : GeminiRequest)
    (oracle : String → Except String FetchResponse)
    (hk : k ≠ "")
    (hq : ¬(b.action = some "ask" ∧ optTrim b.question = ""))
    (hn : ¬(b.action = some "ask" ∧ optTrim b.notesContext = ""))
    (hp : buildPrompt b ≠ "") :
    (∀ r, oracle "gemini-1.5-flash-latest" = Except.ok r → r.status = 404 →
      (POST (some k) none (Except.ok b) oracle).2.take 2 =
        ["gemini-1.5-flash-latest", "gemini-1.5-pro"]) ∧
    (∀ r, oracle "gemini-1.5-flash-latest" = Except.ok r →
      isOk r.status = false → r.status ≠ 404 → r.textBody ≠ "" →
      POST (some k) none (Except.ok b) oracle =
        (⟨r.status, ResponseBody.err r.textBody⟩,
          ["gemini-1.5-flash-latest"])) := by
  constructor
  · intro r hr h404
    rw [POST_calls_eq_dispatch k none b oracle hk hq hn hp]
    unfold dispatch
    rw [show preferredModel none = "gemini-1.5-flash-latest" from rfl, hr]
    dsimp only
    rw [show fallbackTail none = ["gemini-1.5-pro", "gemini-1.0-pro"] from
      rfl]
    unfold dispatchFrom
    rw [if_pos (⟨by rw [h404]; decide, h404⟩ :
      isOk r.status = false ∧ r.status = 404)]
    cases h2 : oracle "gemini-1.5-pro" with
    | error e => rfl
    | ok r2 => rfl
  · intro r hr hbad h404 hbody
    have hdis : dispatch oracle none =
        (Except.ok r, ["gemini-1.5-flash-latest"]) := by
      have := dispatch_first_ok oracle none r
        (by rw [show preferredModel none = "gemini-1.5-flash-latest" from
          rfl]; exact hr)
        (fun hx => h404 hx.2)
      exact this
    rw [POST_dispatch_reached k none b oracle hk hq hn hp, hdis]
    dsimp only
    rw [if_pos hbad, if_neg hbody]

/-- C1 witness: with the default candidate list and a first response of
status 404, the first two calls are the first and second default
candidates. -/
theorem C1_witness :
    (POST (some "key") none
      (Except.ok ⟨none, some "hi", none, none, none, none⟩)
      (fun _ => Except.ok ⟨404, "nf", Except.error "nojson"⟩)).2.take 2 =
      ["gemini-1.5-flash-latest", "gemini-1.5-pro"] :=
  (C1_fallback_on_404_only "key" ⟨none, some "hi", none, none, none, none⟩
    (fun _ => Except.ok ⟨404, "nf", Except.error "nojson"⟩)
    (by decide) (by decide) (by decide) (by decide)).1
    ⟨404, "nf", Except.error "nojson"⟩ rfl rfl
